import Mathlib

/-!
Verification development for the Balizas scraper and geocoding resolver.

The definitions below are a shallow embedding of the two core source
modules:

* `scraper.py` — HTML-table extraction of "OBSTÁCULO FIJO" incident rows.
  BeautifulSoup DOM access is modelled by an abstract row capability
  (`Row` / `Cell`): each field records exactly what the Python code reads
  from the DOM (`get_text()`, first `span`/`a`/`b`/`img` child, attribute
  values).  The regular-expression searches of the source are implemented
  as explicit leftmost-match scanners over the character list.

* `geocoding.py` — the Nominatim resolver with its module-level memo
  cache and rate-limit timestamp.  Shared mutable state is threaded as an
  explicit `GeoState`; the network is an oracle `Net` mapping a query
  string to a response (a result list of length at most one, or a raised
  transport/payload exception).  Outbound requests are recorded in a
  trace together with an idealised clock time (sleeps advance the clock
  by exactly the requested amount, all other operations are
  instantaneous).

Python's `str.upper()`/`str.lower()` are modelled for ASCII plus the
Spanish letters appearing in the source's patterns; `\s` is modelled by
`Char.isWhitespace` and `\d` by ASCII digits.
-/

namespace Balizas

/-- Uppercasing as used by the source (`str.upper()`), covering ASCII and
the accented Spanish letters that occur in the scraped text. -/
def pyUpperChar (c : Char) : Char :=
  if c = 'á' then 'Á' else if c = 'é' then 'É' else if c = 'í' then 'Í'
  else if c = 'ó' then 'Ó' else if c = 'ú' then 'Ú' else if c = 'ü' then 'Ü'
  else if c = 'ñ' then 'Ñ' else c.toUpper

/-- Lowercasing as used by the source (`str.lower()` and the
case-insensitive regex flags). -/
def pyLowerChar (c : Char) : Char :=
  if c = 'Á' then 'á' else if c = 'É' then 'é' else if c = 'Í' then 'í'
  else if c = 'Ó' then 'ó' else if c = 'Ú' then 'ú' else if c = 'Ü' then 'ü'
  else if c = 'Ñ' then 'ñ' else c.toLower

/-- `s.upper()`. -/
def pyUpper (s : String) : String := String.mk (s.data.map pyUpperChar)

/-- `s.lower()`. -/
def pyLower (s : String) : String := String.mk (s.data.map pyLowerChar)

/-- Python's `s.strip()`: drop leading and trailing whitespace. -/
def pyStrip (s : String) : String :=
  String.mk (((s.data.dropWhile Char.isWhitespace).reverse.dropWhile Char.isWhitespace).reverse)

/-- Substring test on character lists (Python's `needle in hay`). -/
def containsSub (needle : List Char) : List Char → Bool
  | [] => needle.isEmpty
  | c :: cs => needle.isPrefixOf (c :: cs) || containsSub needle cs

/-- Python's `needle in hay` for strings. -/
def strContains (hay needle : String) : Bool := containsSub needle.data hay.data

/-- State machine implementing `re.sub(r'\s+', ' ', s)`: every maximal
whitespace run is replaced by a single space. -/
def collapseAux : Bool → List Char → List Char
  | _, [] => []
  | prev, c :: cs =>
    if c.isWhitespace then
      if prev then collapseAux true cs else ' ' :: collapseAux true cs
    else c :: collapseAux false cs

/-- `re.sub(r'\s+', ' ', s)`. -/
def collapseWS (s : String) : String := String.mk (collapseAux false s.data)

/-- Attempt to match `\d{2}/\d{2}/\d{4}` at the head of the list. -/
def dateAt : List Char → Option String
  | d1 :: d2 :: '/' :: m1 :: m2 :: '/' :: y1 :: y2 :: y3 :: y4 :: _ =>
    if d1.isDigit && d2.isDigit && m1.isDigit && m2.isDigit &&
       y1.isDigit && y2.isDigit && y3.isDigit && y4.isDigit then
      some (String.mk [d1, d2, '/', m1, m2, '/', y1, y2, y3, y4])
    else none
  | _ => none

/-- Leftmost match of `re.search(r'\d{2}/\d{2}/\d{4}', text)`. -/
def findDate : List Char → Option String
  | [] => none
  | c :: cs =>
    match dateAt (c :: cs) with
    | some d => some d
    | none => findDate cs

/-- Characters admitted by the `[\d.,]` class of the km pattern. -/
def isPkChar (c : Char) : Bool := c.isDigit || c = '.' || c = ','

/-- Attempt to match `km\s*([\d.,]+)` (case-insensitive) at the head of
the list, returning group 1. -/
def kmAt : List Char → Option String
  | k :: m :: rest =>
    if (k = 'k' || k = 'K') && (m = 'm' || m = 'M') then
      let num := (rest.dropWhile Char.isWhitespace).takeWhile isPkChar
      if num.isEmpty then none else some (String.mk num)
    else none
  | _ => none

/-- Leftmost match of `re.search(r'km\s*([\d.,]+)', s, re.IGNORECASE)`. -/
def findKm : List Char → Option String
  | [] => none
  | c :: cs =>
    match kmAt (c :: cs) with
    | some p => some p
    | none => findKm cs

/-- Word characters for `\w` (ASCII alphanumerics, underscore, and the
Spanish accented letters). -/
def isWordChar (c : Char) : Bool :=
  c.isAlphanum || c = '_' ||
    ['á', 'é', 'í', 'ó', 'ú', 'ü', 'ñ', 'Á', 'É', 'Í', 'Ó', 'Ú', 'Ü', 'Ñ'].contains c

/-- Attempt to match `sentido\s+(\w+)` (case-insensitive) at the head of
the list, returning group 1. -/
def sentidoAt (l : List Char) : Option String :=
  if (l.take 7).map pyLowerChar = "sentido".data then
    let rest := l.drop 7
    if (rest.takeWhile Char.isWhitespace).isEmpty then none
    else
      let w := (rest.dropWhile Char.isWhitespace).takeWhile isWordChar
      if w.isEmpty then none else some (String.mk w)
  else none

/-- Leftmost match of `re.search(r'sentido\s+(\w+)', s, re.IGNORECASE)`. -/
def findSentido : List Char → Option String
  | [] => none
  | c :: cs =>
    match sentidoAt (c :: cs) with
    | some w => some w
    | none => findSentido cs

/-- Attempt to match `nivel_(\w+)\.gif` at the head of the list,
returning group 1. -/
def nivelAt (l : List Char) : Option String :=
  if l.take 6 = "nivel_".data then
    let rest := l.drop 6
    let w := rest.takeWhile isWordChar
    if w.isEmpty then none
    else if (rest.drop w.length).take 4 = ".gif".data then some (String.mk w)
    else none
  else none

/-- Leftmost match of `re.search(r'nivel_(\w+)\.gif', src)`. -/
def findNivel : List Char → Option String
  | [] => none
  | c :: cs =>
    match nivelAt (c :: cs) with
    | some n => some n
    | none => findNivel cs

/-- Attempt to match `inciCodigo=(\d+)` at the head of the list. -/
def inciAt (l : List Char) : Option String :=
  if l.take 11 = "inciCodigo=".data then
    let ds := (l.drop 11).takeWhile Char.isDigit
    if ds.isEmpty then none else some (String.mk ds)
  else none

/-- Leftmost match of `re.search(r'inciCodigo=(\d+)', onclick)`. -/
def findInci : List Char → Option String
  | [] => none
  | c :: cs =>
    match inciAt (c :: cs) with
    | some i => some i
    | none => findInci cs

/-- Match of `re.search(r'/(\d+)$', alt)`: a slash followed by a
non-empty digit run at the end of the string. -/
def altIdMatch (l : List Char) : Option String :=
  let r := l.reverse
  let ds := r.takeWhile Char.isDigit
  if ds.isEmpty then none
  else
    match r.drop ds.length with
    | '/' :: _ => some (String.mk ds.reverse)
    | _ => none

/-- Python `s.replace(needle, '')`: remove all (left-to-right,
non-overlapping) occurrences of `needle`. -/
def removeAll (needle : List Char) (l : List Char) : List Char :=
  match l with
  | [] => []
  | c :: cs =>
    if !needle.isEmpty && needle.isPrefixOf (c :: cs) then
      removeAll needle (cs.drop (needle.length - 1))
    else c :: removeAll needle cs
termination_by l.length
decreasing_by
  · simp only [List.length_drop, List.length_cons]
    omega
  · simp only [List.length_cons]
    omega

/-- `full_text.replace(provincia, '')` on strings. -/
def strRemoveAll (s needle : String) : String :=
  String.mk (removeAll needle.data s.data)

/-- The `PROVINCIAS_COMUNIDADES` table of `scraper.py`: static
province-to-autonomous-community lookup. -/
def PROVINCIAS_COMUNIDADES : List (String × String) :=
  [("ALMERÍA", "ANDALUCÍA"), ("CÁDIZ", "ANDALUCÍA"), ("CÓRDOBA", "ANDALUCÍA"),
   ("GRANADA", "ANDALUCÍA"), ("HUELVA", "ANDALUCÍA"), ("JAÉN", "ANDALUCÍA"),
   ("MÁLAGA", "ANDALUCÍA"), ("SEVILLA", "ANDALUCÍA"),
   ("HUESCA", "ARAGÓN"), ("TERUEL", "ARAGÓN"), ("ZARAGOZA", "ARAGÓN"),
   ("ASTURIAS", "ASTURIAS"),
   ("BALEARS, ILLES", "ILLES BALEARS"), ("BALEARES", "ILLES BALEARS"),
   ("LAS PALMAS", "CANARIAS"), ("SANTA CRUZ DE TENERIFE", "CANARIAS"),
   ("PALMAS, LAS", "CANARIAS"), ("S.C.TENERIFE", "CANARIAS"),
   ("CANTABRIA", "CANTABRIA"),
   ("ALBACETE", "CASTILLA-LA MANCHA"), ("CIUDAD REAL", "CASTILLA-LA MANCHA"),
   ("CUENCA", "CASTILLA-LA MANCHA"), ("GUADALAJARA", "CASTILLA-LA MANCHA"),
   ("TOLEDO", "CASTILLA-LA MANCHA"),
   ("ÁVILA", "CASTILLA Y LEÓN"), ("BURGOS", "CASTILLA Y LEÓN"),
   ("LEÓN", "CASTILLA Y LEÓN"), ("PALENCIA", "CASTILLA Y LEÓN"),
   ("SALAMANCA", "CASTILLA Y LEÓN"), ("SEGOVIA", "CASTILLA Y LEÓN"),
   ("SORIA", "CASTILLA Y LEÓN"), ("VALLADOLID", "CASTILLA Y LEÓN"),
   ("ZAMORA", "CASTILLA Y LEÓN"),
   ("BARCELONA", "CATALUÑA"), ("GIRONA", "CATALUÑA"),
   ("LLEIDA", "CATALUÑA"), ("TARRAGONA", "CATALUÑA"),
   ("ALICANTE", "COMUNIDAD VALENCIANA"), ("ALACANT", "COMUNIDAD VALENCIANA"),
   ("CASTELLÓN", "COMUNIDAD VALENCIANA"), ("CASTELLÓ", "COMUNIDAD VALENCIANA"),
   ("VALENCIA", "COMUNIDAD VALENCIANA"), ("VALÈNCIA", "COMUNIDAD VALENCIANA"),
   ("BADAJOZ", "EXTREMADURA"), ("CÁCERES", "EXTREMADURA"),
   ("CORUÑA, A", "GALICIA"), ("A CORUÑA", "GALICIA"), ("LA CORUÑA", "GALICIA"),
   ("LUGO", "GALICIA"), ("OURENSE", "GALICIA"), ("PONTEVEDRA", "GALICIA"),
   ("MADRID", "COMUNIDAD DE MADRID"),
   ("MURCIA", "REGIÓN DE MURCIA"),
   ("NAVARRA", "NAVARRA"),
   ("ÁLAVA", "PAÍS VASCO"), ("ARABA", "PAÍS VASCO"),
   ("BIZKAIA", "PAÍS VASCO"), ("VIZCAYA", "PAÍS VASCO"),
   ("GIPUZKOA", "PAÍS VASCO"), ("GUIPÚZCOA", "PAÍS VASCO"),
   ("LA RIOJA", "LA RIOJA"), ("RIOJA, LA", "LA RIOJA"),
   ("CEUTA", "CEUTA"), ("MELILLA", "MELILLA")]

/-- First-match association lookup (the keys of the Python dict are
pairwise distinct, so this coincides with dict lookup). -/
def lookupTab : List (String × String) → String → Option String
  | [], _ => none
  | (k, v) :: rest, q => if k = q then some v else lookupTab rest q

/-- `get_comunidad` of `scraper.py`. -/
def get_comunidad (provincia : String) : String :=
  match lookupTab PROVINCIAS_COMUNIDADES (pyStrip (pyUpper provincia)) with
  | some c => c
  | none => "DESCONOCIDA"

/-- Abstract view of one `<td>` cell: exactly the DOM reads performed by
`parse_row`.  `text` is `get_text()`; `span`, `link`, `bold` are the
texts of the first nested `span` / `a` / `b` (if any); `imgSrc` is the
`src` attribute of the first nested `img` (absent if there is no image or
it has no `src`); `bolds` lists every nested `b` together with the string
rendering of its previous sibling (if any). -/
structure Cell where
  text : String
  span : Option String
  link : Option String
  imgSrc : Option String
  bold : Option String
  bolds : List (Option String × String)
deriving DecidableEq

/-- Abstract view of one `<tr>` row: its `get_text()`, its `<td>` cells,
the `onclick` attributes of its `<a>` descendants and the `alt`
attributes of its `<img>` descendants. -/
structure Row where
  text : String
  cells : List Cell
  linkOnclicks : List String
  imgAlts : List String
deriving DecidableEq

/-- The `Incidencia` dataclass of `scraper.py` (coordinates use ℚ; the
code stores parsed decimal values and performs no arithmetic on them). -/
structure Incidencia where
  id : String
  tipo : String
  fecha_inicio : String
  hora_inicio : String
  fecha_fin : Option String
  hora_fin : Option String
  nivel : String
  comunidad : String
  provincia : String
  poblacion : String
  carretera : String
  pk : String
  sentido : String
  descripcion : String
  activa : Bool
  latitud : Option ℚ
  longitud : Option ℚ
  precision_geo : Option String
deriving DecidableEq

/-- First successful element (Python's loop-with-early-return over
pattern matches). -/
def firstSome : List (Option String) → Option String
  | [] => none
  | some x :: _ => some x
  | none :: rest => firstSome rest

/-- `extract_id` of `scraper.py`: search every link's `onclick` for
`inciCodigo=(\d+)`, then every image's `alt` for `/(\d+)$`; first match
wins, otherwise the empty string. -/
def extract_id (row : Row) : String :=
  match firstSome (row.linkOnclicks.map (fun oc => findInci oc.data)) with
  | some i => i
  | none =>
    match firstSome (row.imgAlts.map (fun alt => altIdMatch alt.data)) with
    | some i => i
    | none => ""

/-- The sentido fallback of `parse_row`: scan the description cell's
bold elements for one whose previous sibling mentions "sentido". -/
def sentidoFromBolds : List (Option String × String) → String
  | [] => ""
  | (prev, btext) :: rest =>
    match prev with
    | some p =>
      if p ≠ "" && strContains (pyLower p) "sentido" then pyStrip btext
      else sentidoFromBolds rest
    | none => sentidoFromBolds rest

/-- `parse_row` of `scraper.py`.  `none` models the `IndexError` raised
when fewer than six cells are present (the only statement of the body
that can raise); every other path is total. -/
def parse_row (cells : List Cell) (row_id : String) : Option Incidencia :=
  match cells with
  | c0 :: c1 :: c2 :: c3 :: c4 :: c5 :: _ =>
    let hora_inicio := match c0.span with | some t => pyStrip t | none => ""
    let fecha_inicio := match c0.link with | some t => pyStrip t | none => ""
    let finPair : Option String × Option String :=
      match c1.span with
      | some t =>
        if pyStrip t ≠ "" then (some (pyStrip t), findDate c1.text.data)
        else (none, none)
      | none => (none, none)
    let nivel :=
      match c2.imgSrc with
      | some src =>
        if src ≠ "" then
          match findNivel src.data with
          | some n => n
          | none => "desconocido"
        else "desconocido"
      | none => "desconocido"
    let provincia := match c3.bold with | some t => pyStrip t | none => ""
    let full_text := pyStrip c3.text
    let poblacion :=
      if provincia ≠ "" && strContains full_text provincia then
        pyStrip (strRemoveAll full_text provincia)
      else ""
    let carretera := match c4.bold with | some t => pyStrip t | none => ""
    let descripcion := collapseWS (pyStrip c5.text)
    let pk := match findKm descripcion.data with | some p => p | none => ""
    let upper_desc := pyUpper descripcion
    let tipo :=
      if strContains upper_desc "OBSTÁCULO FIJO" && strContains upper_desc "ACCIDENTE" then
        "OBSTÁCULO FIJO POR ACCIDENTE"
      else "OBSTÁCULO FIJO"
    let sentido :=
      match findSentido descripcion.data with
      | some w => w
      | none => sentidoFromBolds c5.bolds
    some { id := row_id, tipo := tipo, fecha_inicio := fecha_inicio,
           hora_inicio := hora_inicio, fecha_fin := finPair.2,
           hora_fin := finPair.1, nivel := nivel,
           comunidad := get_comunidad provincia, provincia := provincia,
           poblacion := poblacion, carretera := carretera, pk := pk,
           sentido := sentido, descripcion := descripcion,
           activa := finPair.2.isNone, latitud := none, longitud := none,
           precision_geo := none }
  | _ => none

/-- `parse_incidencias` of `scraper.py` over the abstract row list: keep
rows mentioning "OBSTÁCULO FIJO" (upper-cased row text), skip rows with
fewer than six cells, and skip any row whose per-row parse raises. -/
def parse_incidencias : List Row → List Incidencia
  | [] => []
  | row :: rest =>
    if strContains (pyUpper row.text) "OBSTÁCULO FIJO" then
      if row.cells.length < 6 then parse_incidencias rest
      else
        match parse_row row.cells (extract_id row) with
        | some inc => inc :: parse_incidencias rest
        | none => parse_incidencias rest
    else parse_incidencias rest

/-- The GPS result dataclass `Coordenadas` of `geocoding.py`. -/
structure Coordenadas where
  latitud : ℚ
  longitud : ℚ
  precision : String
  fuente : String
deriving DecidableEq

/-- Response of one Nominatim HTTP round-trip: `ok (some c)` is a
successful request whose JSON array holds a first hit with coordinates
`c`; `ok none` is a successful request with an empty result array; `exn`
is any exception raised during the attempt (network, non-2xx status,
malformed payload). -/
inductive NetResp where
  | ok : Option (ℚ × ℚ) → NetResp
  | exn : NetResp
deriving DecidableEq

/-- The external geocoding service as a deterministic oracle. -/
def Net : Type := String → NetResp

/-- The module-level mutable state of `geocoding.py`: the memo cache
`_geocode_cache` (an entry `(q, none)` is a remembered "no match"),
`_last_request_time`, the idealised wall clock, and — as observational
instrumentation — the list of outbound requests actually issued, each
with the clock time at which it was sent. -/
structure GeoState where
  cache : List (String × Option (ℚ × ℚ))
  lastReq : ℤ
  clock : ℤ
  trace : List (String × ℤ)
deriving DecidableEq

/-- Lookup in the memo cache (`query in _geocode_cache`). -/
def lookupC : List (String × Option (ℚ × ℚ)) → String → Option (Option (ℚ × ℚ))
  | [], _ => none
  | (k, v) :: rest, q => if k = q then some v else lookupC rest q

/-- `_rate_limit` of `geocoding.py`: if less than one second elapsed
since the last request, sleep the residual interval; then record the
current time as the last-request time. -/
def rateLimit (s : GeoState) : GeoState :=
  let elapsed := s.clock - s.lastReq
  let s1 := if elapsed < 1 then { s with clock := s.clock + (1 - elapsed) } else s
  { s1 with lastReq := s1.clock }

/-- `geocodificar_nominatim` of `geocoding.py`: consult the memo cache
first; on a miss, rate-limit, issue the request (recorded in the trace),
memoise a successful coordinate pair or a genuine empty result, and treat
an exception as "no match" without memoising it. -/
def geocodificar_nominatim (net : Net) (q : String) (s : GeoState) :
    Option (ℚ × ℚ) × GeoState :=
  match lookupC s.cache q with
  | some v => (v, s)
  | none =>
    let s1 := rateLimit s
    let s2 := { s1 with trace := s1.trace ++ [(q, s1.clock)] }
    match net q with
    | NetResp.ok (some c) => (some c, { s2 with cache := (q, some c) :: s2.cache })
    | NetResp.ok none => (none, { s2 with cache := (q, none) :: s2.cache })
    | NetResp.exn => (none, s2)

/-- One level of the fallback cascade of `geocodificar_baliza`: whether
its required fields are non-empty, the literal query it sends, and the
precision label and fuente string of the `Coordenadas` it would build. -/
structure Estrategia where
  cond : Bool
  query : String
  precision : String
  fuente : String
deriving DecidableEq

/-- `pk.replace(',', '.') if pk else ''`. -/
def pkNormalizar (pk : String) : String :=
  if pk = "" then ""
  else String.mk (pk.data.map (fun c => if c = ',' then '.' else c))

/-- `poblacion.split('(')[0].strip() if poblacion else ''`. -/
def limpiarPoblacion (p : String) : String :=
  if p = "" then ""
  else pyStrip (String.mk (p.data.takeWhile (fun c => c ≠ '(')))

/-- The seven query formulations of `geocodificar_baliza`, in source
order, each with its guard, query string, precision label and fuente. -/
def estrategias (carretera pkn provincia pobl : String) : List Estrategia :=
  let q1 := carretera ++ " km " ++ pkn ++ ", " ++ pobl ++ ", " ++ provincia ++ ", España"
  let q2 := pobl ++ ", " ++ carretera ++ ", " ++ provincia ++ ", España"
  let q3 := carretera ++ " kilómetro " ++ pkn ++ ", " ++ provincia ++ ", España"
  let q4 := carretera ++ " km " ++ pkn ++ ", España"
  let q5 := pobl ++ ", " ++ provincia ++ ", España"
  let q6 := "carretera " ++ carretera ++ ", " ++ provincia ++ ", España"
  let q7 := provincia ++ ", España"
  [⟨carretera ≠ "" && pkn ≠ "" && pobl ≠ "", q1, "muy_alta", "Nominatim: " ++ q1⟩,
   ⟨pobl ≠ "" && carretera ≠ "", q2, "alta", "Nominatim: " ++ q2⟩,
   ⟨carretera ≠ "" && pkn ≠ "", q3, "alta", "Nominatim: " ++ q3⟩,
   ⟨carretera ≠ "" && pkn ≠ "", q4, "media", "Nominatim: " ++ q4⟩,
   ⟨pobl ≠ "", q5, "media", "Nominatim (población): " ++ q5⟩,
   ⟨carretera ≠ "", q6, "baja", "Nominatim: " ++ q6⟩,
   ⟨true, q7, "estimada", "Nominatim (provincia): " ++ q7⟩]

/-- Run the cascade: try each admissible strategy in order, stopping at
the first query for which the resolver returns coordinates. -/
def tryChain (net : Net) : List Estrategia → GeoState → Option Coordenadas × GeoState
  | [], s => (none, s)
  | e :: rest, s =>
    if e.cond then
      match geocodificar_nominatim net e.query s with
      | (some c, s1) =>
        (some { latitud := c.1, longitud := c.2,
                precision := e.precision, fuente := e.fuente }, s1)
      | (none, s1) => tryChain net rest s1
    else tryChain net rest s

/-- `geocodificar_baliza` of `geocoding.py`.  The `comunidad` argument is
accepted but, as in the source, never used. -/
def geocodificar_baliza (net : Net) (carretera pk provincia poblacion comunidad : String)
    (s : GeoState) : Option Coordenadas × GeoState :=
  tryChain net (estrategias carretera (pkNormalizar pk) provincia (limpiarPoblacion poblacion)) s

/-- Observation of the cascade: the sequence of query strings handed to
`geocodificar_nominatim` by a `tryChain` run (whether or not each is
answered from the cache). -/
def tryChainAttempts (net : Net) : List Estrategia → GeoState → List String
  | [], _ => []
  | e :: rest, s =>
    if e.cond then
      match geocodificar_nominatim net e.query s with
      | (some _, _) => [e.query]
      | (none, s1) => e.query :: tryChainAttempts net rest s1
    else tryChainAttempts net rest s

/-- The queries attempted by one `geocodificar_baliza` call, in order. -/
def balizaAttempts (net : Net) (carretera pk provincia poblacion comunidad : String)
    (s : GeoState) : List String :=
  tryChainAttempts net
    (estrategias carretera (pkNormalizar pk) provincia (limpiarPoblacion poblacion)) s

/-- The value the network oracle yields for a query once issued
(an exception produces no value). -/
def netVal (net : Net) (q : String) : Option (ℚ × ℚ) :=
  match net q with
  | NetResp.ok v => v
  | NetResp.exn => none

/-- A cache is consistent with the oracle when every memoised entry is
exactly what the oracle answers for that query.  The empty initial cache
is trivially consistent, and (absent exceptions) every reachable cache
stays consistent. -/
def consistentC (net : Net) (cache : List (String × Option (ℚ × ℚ))) : Prop :=
  ∀ q v, lookupC cache q = some v → v = netVal net q

/-- Outbound requests in a trace are spaced at least one second apart. -/
def sep1 (l : List (String × ℤ)) : Prop :=
  l.Chain' (fun a b => a.2 + 1 ≤ b.2)

/-- Well-formed resolver state: the trace is 1-separated and no recorded
request postdates the last-request timestamp. -/
def WFgeo (s : GeoState) : Prop :=
  sep1 s.trace ∧ ∀ e ∈ s.trace, e.2 ≤ s.lastReq

/-- A batch of resolver calls, threading the shared state. -/
def runBalizas (net : Net) :
    List (String × String × String × String × String) → GeoState → GeoState
  | [], s => s
  | (c, pk, prov, pob, com) :: rest, s =>
    runBalizas net rest ((geocodificar_baliza net c pk prov pob com s).2)

theorem rateLimit_cache (s : GeoState) : (rateLimit s).cache = s.cache := by
  simp only [rateLimit]
  split <;> rfl

theorem rateLimit_trace (s : GeoState) : (rateLimit s).trace = s.trace := by
  simp only [rateLimit]
  split <;> rfl

theorem rateLimit_lastReq (s : GeoState) : (rateLimit s).lastReq = (rateLimit s).clock := by
  simp only [rateLimit]

theorem rateLimit_clock_ge (s : GeoState) : s.lastReq + 1 ≤ (rateLimit s).clock := by
  simp only [rateLimit]
  split
  · next h => dsimp only; linarith
  · next h => linarith [not_lt.mp h]

theorem nominatim_hit (net : Net) (q : String) (s : GeoState) (v : Option (ℚ × ℚ))
    (h : lookupC s.cache q = some v) : geocodificar_nominatim net q s = (v, s) := by
  unfold geocodificar_nominatim
  rw [h]

theorem nominatim_exn (net : Net) (q : String) (s : GeoState)
    (hl : lookupC s.cache q = none) (hn : net q = NetResp.exn) :
    geocodificar_nominatim net q s =
      (none, { rateLimit s with trace := (rateLimit s).trace ++ [(q, (rateLimit s).clock)] }) := by
  unfold geocodificar_nominatim
  rw [hl, hn]

/-- C10: a query that fails with a transport or payload exception is not
memoised: the cache is unchanged (in particular the query stays absent),
the call returns "no match", one outbound request was issued, and an
identical later call re-issues the request instead of being answered
from the cache. -/
theorem c10_exn_not_cached (net : Net) (q : String) (s : GeoState)
    (hn : net q = NetResp.exn) (hl : lookupC s.cache q = none) :
    (geocodificar_nominatim net q s).1 = none
    ∧ ((geocodificar_nominatim net q s).2).cache = s.cache
    ∧ ((geocodificar_nominatim net q s).2).trace.length = s.trace.length + 1
    ∧ ((geocodificar_nominatim net q ((geocodificar_nominatim net q s).2)).2).trace.length
        = s.trace.length + 2 := by
  have h1 := nominatim_exn net q s hl hn
  have hc : ((geocodificar_nominatim net q s).2).cache = s.cache := by
    rw [h1]
    simpa using rateLimit_cache s
  have ht : ((geocodificar_nominatim net q s).2).trace.length = s.trace.length + 1 := by
    rw [h1]
    simp [rateLimit_trace s]
  refine ⟨by rw [h1], hc, ht, ?_⟩
  have hl2 : lookupC ((geocodificar_nominatim net q s).2).cache q = none := by rw [hc]; exact hl
  have h2 := nominatim_exn net q ((geocodificar_nominatim net q s).2) hl2 hn
  rw [h2]
  simp [rateLimit_trace, ht]

def netExnW : Net := fun _ => NetResp.exn

def s0geo : GeoState := ⟨[], 0, 0, []⟩

theorem c10_witness :
    (geocodificar_nominatim netExnW "A-1, España" s0geo).1 = none
    ∧ ((geocodificar_nominatim netExnW "A-1, España" s0geo).2).cache = s0geo.cache
    ∧ ((geocodificar_nominatim netExnW "A-1, España" s0geo).2).trace.length = s0geo.trace.length + 1
    ∧ ((geocodificar_nominatim netExnW "A-1, España"
          ((geocodificar_nominatim netExnW "A-1, España" s0geo).2)).2).trace.length
        = s0geo.trace.length + 2 :=
  c10_exn_not_cached netExnW "A-1, España" s0geo rfl rfl

/-- C9: a province whose upper-cased, trimmed name is absent from the
province-to-community table resolves to the sentinel "DESCONOCIDA",
never to the empty string (and `get_comunidad` is total, so no exception
is possible). -/
theorem c9_unknown_region (p : String)
    (h : lookupTab PROVINCIAS_COMUNIDADES (pyStrip (pyUpper p)) = none) :
    get_comunidad p = "DESCONOCIDA" ∧ get_comunidad p ≠ "" := by
  unfold get_comunidad
  rw [h]
  exact ⟨rfl, by decide⟩

theorem c9_witness : get_comunidad "NARNIA" = "DESCONOCIDA" :=
  (c9_unknown_region "NARNIA" (by decide)).1

theorem tryChainAttempts_cons_head (net : Net) (e : Estrategia) (rest : List Estrategia)
    (s : GeoState) (hg : e.cond = true) :
    (tryChainAttempts net (e :: rest) s).head? = some e.query := by
  unfold tryChainAttempts
  rw [hg]
  rcases h : geocodificar_nominatim net e.query s with ⟨c, s1⟩
  cases c <;> simp [h]

/-- C4: with road "A-1", marker "23", province "MADRID" and locality
"Alcobendas", the first query the cascade hands to the resolver is the
four-field combination road + marker + locality + province, before any
lower-precision fallback. -/
theorem c4_first_query (net : Net) (s : GeoState) :
    (balizaAttempts net "A-1" "23" "MADRID" "Alcobendas" "" s).head?
      = some "A-1 km 23, Alcobendas, MADRID, España" := by
  have hE : estrategias "A-1" (pkNormalizar "23") "MADRID" (limpiarPoblacion "Alcobendas")
      = ⟨true, "A-1 km 23, Alcobendas, MADRID, España", "muy_alta",
          "Nominatim: A-1 km 23, Alcobendas, MADRID, España"⟩ ::
        [⟨true, "Alcobendas, A-1, MADRID, España", "alta",
          "Nominatim: Alcobendas, A-1, MADRID, España"⟩,
         ⟨true, "A-1 kilómetro 23, MADRID, España", "alta",
          "Nominatim: A-1 kilómetro 23, MADRID, España"⟩,
         ⟨true, "A-1 km 23, España", "media", "Nominatim: A-1 km 23, España"⟩,
         ⟨true, "Alcobendas, MADRID, España", "media",
          "Nominatim (población): Alcobendas, MADRID, España"⟩,
         ⟨true, "carretera A-1, MADRID, España", "baja",
          "Nominatim: carretera A-1, MADRID, España"⟩,
         ⟨true, "MADRID, España", "estimada",
          "Nominatim (provincia): MADRID, España"⟩] := by decide
  unfold balizaAttempts
  rw [hE]
  exact tryChainAttempts_cons_head net _ _ s rfl

theorem nominatim_ok_some (net : Net) (q : String) (s : GeoState) (c : ℚ × ℚ)
    (hl : lookupC s.cache q = none) (hn : net q = NetResp.ok (some c)) :
    geocodificar_nominatim net q s =
      (some c,
        { cache := (q, some c) :: (rateLimit s).cache,
          lastReq := (rateLimit s).lastReq, clock := (rateLimit s).clock,
          trace := (rateLimit s).trace ++ [(q, (rateLimit s).clock)] }) := by
  unfold geocodificar_nominatim
  rw [hl, hn]

theorem nominatim_ok_none (net : Net) (q : String) (s : GeoState)
    (hl : lookupC s.cache q = none) (hn : net q = NetResp.ok none) :
    geocodificar_nominatim net q s =
      (none,
        { cache := (q, none) :: (rateLimit s).cache,
          lastReq := (rateLimit s).lastReq, clock := (rateLimit s).clock,
          trace := (rateLimit s).trace ++ [(q, (rateLimit s).clock)] }) := by
  unfold geocodificar_nominatim
  rw [hl, hn]

theorem netVal_eq (net : Net) (q : String) (v : Option (ℚ × ℚ))
    (hn : net q = NetResp.ok v) : netVal net q = v := by
  unfold netVal
  rw [hn]

theorem lookupC_cons (k : String) (v : Option (ℚ × ℚ))
    (cache : List (String × Option (ℚ × ℚ))) (q : String) :
    lookupC ((k, v) :: cache) q = if k = q then some v else lookupC cache q := rfl

theorem nominatim_fst (net : Net) (q : String) (s : GeoState)
    (hq : net q ≠ NetResp.exn) (hs : consistentC net s.cache) :
    (geocodificar_nominatim net q s).1 = netVal net q := by
  cases hl : lookupC s.cache q with
  | some v =>
    rw [nominatim_hit net q s v hl]
    exact hs q v hl
  | none =>
    cases hn : net q with
    | ok v =>
      cases v with
      | some c => rw [nominatim_ok_some net q s c hl hn, netVal_eq net q _ hn]
      | none => rw [nominatim_ok_none net q s hl hn, netVal_eq net q _ hn]
    | exn => exact absurd hn hq

theorem nominatim_consistent (net : Net) (q : String) (s : GeoState)
    (hs : consistentC net s.cache) :
    consistentC net ((geocodificar_nominatim net q s).2).cache := by
  cases hl : lookupC s.cache q with
  | some v =>
    rw [nominatim_hit net q s v hl]
    exact hs
  | none =>
    cases hn : net q with
    | ok v =>
      cases v with
      | some c =>
        rw [nominatim_ok_some net q s c hl hn]
        intro p w hp
        rw [lookupC_cons] at hp
        rw [rateLimit_cache] at hp
        by_cases hqp : q = p
        · subst hqp
          rw [if_pos rfl] at hp
          rw [netVal_eq net q _ hn]
          exact (Option.some.injEq _ _).mp hp.symm
        · rw [if_neg hqp] at hp
          exact hs p w hp
      | none =>
        rw [nominatim_ok_none net q s hl hn]
        intro p w hp
        rw [lookupC_cons] at hp
        rw [rateLimit_cache] at hp
        by_cases hqp : q = p
        · subst hqp
          rw [if_pos rfl] at hp
          rw [netVal_eq net q _ hn]
          exact (Option.some.injEq _ _).mp hp.symm
        · rw [if_neg hqp] at hp
          exact hs p w hp
    | exn =>
      rw [nominatim_exn net q s hl hn]
      intro p w hp
      rw [rateLimit_cache] at hp
      exact hs p w hp

theorem nominatim_mono (net : Net) (q p : String) (s : GeoState)
    (hp : lookupC s.cache p = some (netVal net p)) :
    lookupC ((geocodificar_nominatim net q s).2).cache p = some (netVal net p) := by
  cases hl : lookupC s.cache q with
  | some v =>
    rw [nominatim_hit net q s v hl]
    exact hp
  | none =>
    cases hn : net q with
    | ok v =>
      cases v with
      | some c =>
        rw [nominatim_ok_some net q s c hl hn]
        rw [lookupC_cons, rateLimit_cache]
        by_cases hqp : q = p
        · subst hqp
          rw [if_pos rfl, netVal_eq net q _ hn]
        · rw [if_neg hqp]
          exact hp
      | none =>
        rw [nominatim_ok_none net q s hl hn]
        rw [lookupC_cons, rateLimit_cache]
        by_cases hqp : q = p
        · subst hqp
          rw [if_pos rfl, netVal_eq net q _ hn]
        · rw [if_neg hqp]
          exact hp
    | exn =>
      rw [nominatim_exn net q s hl hn]
      rw [show ({ rateLimit s with
            trace := (rateLimit s).trace ++ [(q, (rateLimit s).clock)] } : GeoState).cache
          = (rateLimit s).cache from rfl, rateLimit_cache]
      exact hp

theorem nominatim_caches (net : Net) (q : String) (s : GeoState)
    (hq : net q ≠ NetResp.exn) (hs : consistentC net s.cache) :
    lookupC ((geocodificar_nominatim net q s).2).cache q = some (netVal net q) := by
  cases hl : lookupC s.cache q with
  | some v =>
    rw [nominatim_hit net q s v hl, hl, hs q v hl]
  | none =>
    cases hn : net q with
    | ok v =>
      cases v with
      | some c =>
        rw [nominatim_ok_some net q s c hl hn]
        rw [lookupC_cons, if_pos rfl, netVal_eq net q _ hn]
      | none =>
        rw [nominatim_ok_none net q s hl hn]
        rw [lookupC_cons, if_pos rfl, netVal_eq net q _ hn]
    | exn => exact absurd hn hq

theorem tryChain_cons_false (net : Net) (e : Estrategia) (rest : List Estrategia)
    (s : GeoState) (hg : e.cond = false) :
    tryChain net (e :: rest) s = tryChain net rest s := by
  rw [tryChain, hg]
  simp

theorem tryChain_cons_some (net : Net) (e : Estrategia) (rest : List Estrategia)
    (s s1 : GeoState) (c : ℚ × ℚ) (hg : e.cond = true)
    (hN : geocodificar_nominatim net e.query s = (some c, s1)) :
    tryChain net (e :: rest) s =
      (some { latitud := c.1, longitud := c.2,
              precision := e.precision, fuente := e.fuente }, s1) := by
  rw [tryChain, hg, hN]
  rfl

theorem tryChain_cons_none (net : Net) (e : Estrategia) (rest : List Estrategia)
    (s s1 : GeoState) (hg : e.cond = true)
    (hN : geocodificar_nominatim net e.query s = (none, s1)) :
    tryChain net (e :: rest) s = tryChain net rest s1 := by
  rw [tryChain, hg, hN]
  rfl

/-- Replay property of the cascade under an exception-free oracle: the
final cache stays oracle-consistent, correctly-memoised entries persist,
and re-running the whole cascade on the state it produced changes
nothing — same result, same state, hence no further outbound request. -/
theorem tryChain_replay (net : Net) (hq : ∀ q, net q ≠ NetResp.exn) :
    ∀ (strats : List Estrategia) (s : GeoState), consistentC net s.cache →
      consistentC net ((tryChain net strats s).2).cache
      ∧ (∀ p, lookupC s.cache p = some (netVal net p) →
          lookupC ((tryChain net strats s).2).cache p = some (netVal net p))
      ∧ tryChain net strats ((tryChain net strats s).2) = tryChain net strats s := by
  intro strats
  induction strats with
  | nil => exact fun s hs => ⟨hs, fun p hp => hp, rfl⟩
  | cons e rest ih =>
    intro s hs
    cases hg : e.cond with
    | false =>
      obtain ⟨ihc, ihm, ihr⟩ := ih s hs
      rw [tryChain_cons_false net e rest s hg]
      refine ⟨ihc, ihm, ?_⟩
      rw [tryChain_cons_false net e rest _ hg, ihr]
    | true =>
      have hfst := nominatim_fst net e.query s (hq e.query) hs
      rcases hN : geocodificar_nominatim net e.query s with ⟨r, s1⟩
      rw [hN] at hfst
      have hcons1 : consistentC net s1.cache := by
        have h := nominatim_consistent net e.query s hs
        rw [hN] at h
        exact h
      have hcq : lookupC s1.cache e.query = some (netVal net e.query) := by
        have h := nominatim_caches net e.query s (hq e.query) hs
        rw [hN] at h
        exact h
      have hmono1 : ∀ p, lookupC s.cache p = some (netVal net p) →
          lookupC s1.cache p = some (netVal net p) := by
        intro p hp
        have h := nominatim_mono net e.query p s hp
        rw [hN] at h
        exact h
      cases r with
      | some c =>
        have hstep := tryChain_cons_some net e rest s s1 c hg hN
        rw [hstep]
        refine ⟨hcons1, hmono1, ?_⟩
        have hhit : geocodificar_nominatim net e.query s1 = (some c, s1) := by
          have h := nominatim_hit net e.query s1 (netVal net e.query) hcq
          rw [← hfst] at h
          exact h
        rw [tryChain_cons_some net e rest s1 s1 c hg hhit]
      | none =>
        have hstep := tryChain_cons_none net e rest s s1 hg hN
        rw [hstep]
        obtain ⟨ihc, ihm, ihr⟩ := ih s1 hcons1
        refine ⟨ihc, fun p hp => ihm p (hmono1 p hp), ?_⟩
        have hcq2 : lookupC ((tryChain net rest s1).2).cache e.query
            = some (netVal net e.query) := ihm e.query hcq
        have hhit : geocodificar_nominatim net e.query ((tryChain net rest s1).2)
            = (none, (tryChain net rest s1).2) := by
          have h := nominatim_hit net e.query ((tryChain net rest s1).2)
            (netVal net e.query) hcq2
          rw [← hfst] at h
          exact h
        rw [tryChain_cons_none net e rest _ _ hg hhit, ihr]

/-- C2 (amended): under an exception-free oracle, a second resolver call
with identical inputs is answered entirely from the memo cache: it
returns the same result and leaves the state (in particular the request
trace) unchanged, so each distinct literal query is sent at most once
across the two calls; moreover any memoised query — including a
remembered "no match" — is answered without contacting the service or
touching the rate limiter. -/
theorem c2_memo_amended (net : Net) (carretera pk provincia poblacion comunidad : String)
    (s : GeoState) (hq : ∀ q, net q ≠ NetResp.exn) (hs : consistentC net s.cache) :
    geocodificar_baliza net carretera pk provincia poblacion comunidad
        ((geocodificar_baliza net carretera pk provincia poblacion comunidad s).2)
      = geocodificar_baliza net carretera pk provincia poblacion comunidad s
    ∧ ∀ q v, lookupC s.cache q = some v → geocodificar_nominatim net q s = (v, s) := by
  refine ⟨?_, fun q v h => nominatim_hit net q s v h⟩
  unfold geocodificar_baliza
  exact (tryChain_replay net hq _ s hs).2.2

def netNoMatch : Net := fun _ => NetResp.ok none

theorem c2_witness :
    geocodificar_baliza netNoMatch "A-1" "23" "MADRID" "Alcobendas" ""
        ((geocodificar_baliza netNoMatch "A-1" "23" "MADRID" "Alcobendas" "" s0geo).2)
      = geocodificar_baliza netNoMatch "A-1" "23" "MADRID" "Alcobendas" "" s0geo :=
  (c2_memo_amended netNoMatch "A-1" "23" "MADRID" "Alcobendas" "" s0geo
    (fun _ h => NetResp.noConfusion h) (fun _ v h => Option.noConfusion h)).1

/-- The shared state after two identical resolver calls against an
oracle that finds no match for any query, starting from the initial
module state. -/
def c2runState : GeoState :=
  (geocodificar_baliza netNoMatch "A-1" "23" "MADRID" "Alcobendas" ""
    ((geocodificar_baliza netNoMatch "A-1" "23" "MADRID" "Alcobendas" "" s0geo).2)).2

/-- C2 (counterexample): the claim "two resolver calls with identical
normalized inputs issue at most one outbound geocoding request in total"
is false: with an oracle that finds no match for any query, the first
call already issues seven outbound requests (one per cascade level), and
the pair of calls issues seven in total. -/
theorem c2_counterexample :
    ¬ (c2runState.trace.length ≤ 1) ∧ c2runState.trace.length = 7 :=
  ⟨by decide, by decide⟩

/-- When the resolver hands back coordinates for a query over an
oracle-consistent cache, those coordinates are exactly the oracle's
successful answer for that query: a cache hit is consistent with the
oracle by hypothesis, a miss returns coordinates only in the
successful-response branch, and the exception and empty-result branches
return no coordinates at all. -/
theorem nominatim_some_netVal (net : Net) (q : String) (s : GeoState) (c : ℚ × ℚ)
    (s1 : GeoState) (hs : consistentC net s.cache)
    (h : geocodificar_nominatim net q s = (some c, s1)) :
    netVal net q = some c := by
  cases hl : lookupC s.cache q with
  | some v =>
    rw [nominatim_hit net q s v hl] at h
    have hv : v = some c := congrArg Prod.fst h
    rw [← hs q v hl]
    exact hv
  | none =>
    cases hn : net q with
    | ok v =>
      cases v with
      | some c2 =>
        rw [nominatim_ok_some net q s c2 hl hn] at h
        have hv : some c2 = some c := congrArg Prod.fst h
        rw [netVal_eq net q _ hn]
        exact hv
      | none =>
        rw [nominatim_ok_none net q s hl hn] at h
        have hv := congrArg Prod.fst h
        simp at hv
    | exn =>
      rw [nominatim_exn net q s hl hn] at h
      have hv := congrArg Prod.fst h
      simp at hv

theorem tryChain_some_origin (net : Net) :
    ∀ (strats : List Estrategia) (s : GeoState) (r : Coordenadas) (s2 : GeoState),
      consistentC net s.cache →
      tryChain net strats s = (some r, s2) →
      ∃ e ∈ strats, r.precision = e.precision ∧ r.fuente = e.fuente ∧
        netVal net e.query = some (r.latitud, r.longitud) := by
  intro strats
  induction strats with
  | nil =>
    intro s r s2 _ h
    exact absurd h (by simp [tryChain])
  | cons e rest ih =>
    intro s r s2 hs h
    cases hg : e.cond with
    | false =>
      rw [tryChain_cons_false net e rest s hg] at h
      obtain ⟨e2, he2, hrest⟩ := ih s r s2 hs h
      exact ⟨e2, List.mem_cons_of_mem e he2, hrest⟩
    | true =>
      rcases hN : geocodificar_nominatim net e.query s with ⟨c?, s1⟩
      cases c? with
      | some c =>
        rw [tryChain_cons_some net e rest s s1 c hg hN] at h
        have hr : r = ⟨c.1, c.2, e.precision, e.fuente⟩ := by
          have h1 := congrArg Prod.fst h
          simpa using h1.symm
        subst hr
        exact ⟨e, List.mem_cons_self e rest, rfl, rfl,
          nominatim_some_netVal net e.query s c s1 hs hN⟩
      | none =>
        rw [tryChain_cons_none net e rest s s1 hg hN] at h
        have hs1 : consistentC net s1.cache := by
          have h2 := nominatim_consistent net e.query s hs
          rw [hN] at h2
          exact h2
        obtain ⟨e2, he2, hrest⟩ := ih s1 r s2 hs1 h
        exact ⟨e2, List.mem_cons_of_mem e he2, hrest⟩

/-- C6: starting from any cache consistent with the oracle — in
particular from the program's initial empty cache — whenever the
resolver returns a result at all, its precision label is one of the five
cascade labels (never null), and its coordinates are exactly the pair
the geocoding service successfully answered for the query recorded in
`fuente`: `netVal net q = some (lat, lon)` forces a successful service
response carrying precisely those coordinates, so no zeroed or sentinel
coordinate is ever fabricated for a failed lookup (a failed lookup
returns `none`). -/
theorem c6_result_invariant (net : Net)
    (carretera pk provincia poblacion comunidad : String) (s : GeoState) (r : Coordenadas)
    (hs : consistentC net s.cache)
    (h : (geocodificar_baliza net carretera pk provincia poblacion comunidad s).1 = some r) :
    (r.precision = "muy_alta" ∨ r.precision = "alta" ∨ r.precision = "media"
      ∨ r.precision = "baja" ∨ r.precision = "estimada")
    ∧ ∃ q, netVal net q = some (r.latitud, r.longitud)
        ∧ (r.fuente = "Nominatim: " ++ q ∨ r.fuente = "Nominatim (población): " ++ q
            ∨ r.fuente = "Nominatim (provincia): " ++ q) := by
  have h2 : geocodificar_baliza net carretera pk provincia poblacion comunidad s
      = (some r, (geocodificar_baliza net carretera pk provincia poblacion comunidad s).2) := by
    rw [Prod.ext_iff]
    exact ⟨h, rfl⟩
  unfold geocodificar_baliza at h2
  obtain ⟨e, he, hp, hf, hv⟩ := tryChain_some_origin net _ s r _ hs h2
  simp only [estrategias, List.mem_cons, List.not_mem_nil, or_false] at he
  rcases he with rfl | rfl | rfl | rfl | rfl | rfl | rfl <;>
    exact ⟨by simp [hp], _, hv, by simp [hf]⟩

def netOkW : Net := fun _ => NetResp.ok (some (40, -3))

def c6res : Coordenadas :=
  ⟨40, -3, "muy_alta", "Nominatim: A-1 km 23, Alcobendas, MADRID, España"⟩

theorem c6_witness :
    c6res.precision = "muy_alta" ∨ c6res.precision = "alta" ∨ c6res.precision = "media"
      ∨ c6res.precision = "baja" ∨ c6res.precision = "estimada" :=
  (c6_result_invariant netOkW "A-1" "23" "MADRID" "Alcobendas" "" s0geo c6res
    (fun _ v h => Option.noConfusion h) (by decide)).1

theorem mem_of_getLast_opt {α : Type} {l : List α} {x : α} (h : x ∈ l.getLast?) : x ∈ l := by
  obtain ⟨hne, rfl⟩ := List.mem_getLast?_eq_getLast h
  exact List.getLast_mem hne

theorem nominatim_WF (net : Net) (q : String) (s : GeoState) (h : WFgeo s) :
    WFgeo ((geocodificar_nominatim net q s).2) := by
  obtain ⟨hsep, hle⟩ := h
  cases hl : lookupC s.cache q with
  | some v =>
    rw [nominatim_hit net q s v hl]
    exact ⟨hsep, hle⟩
  | none =>
    have key : WFgeo ({ rateLimit s with
        trace := (rateLimit s).trace ++ [(q, (rateLimit s).clock)] }) := by
      constructor
      · show sep1 ((rateLimit s).trace ++ [(q, (rateLimit s).clock)])
        rw [rateLimit_trace]
        refine List.Chain'.append hsep (List.chain'_singleton _) ?_
        intro x hx y hy
        have hx2 : x ∈ s.trace := mem_of_getLast_opt hx
        have hy2 : (q, (rateLimit s).clock) = y := by simpa using hy
        subst hy2
        have h1 := hle x hx2
        have h2 := rateLimit_clock_ge s
        simp only
        linarith
      · intro x hx
        show x.2 ≤ (rateLimit s).lastReq
        rw [rateLimit_lastReq]
        have hx2 : x ∈ (rateLimit s).trace ++ [(q, (rateLimit s).clock)] := hx
        rw [rateLimit_trace] at hx2
        rcases List.mem_append.mp hx2 with hold | hnew
        · have h1 := hle x hold
          have h2 := rateLimit_clock_ge s
          linarith
        · have hx3 : x = (q, (rateLimit s).clock) := by simpa using hnew
          subst hx3
          simp
    cases hn : net q with
    | ok v =>
      cases v with
      | some c =>
        rw [nominatim_ok_some net q s c hl hn]
        exact key
      | none =>
        rw [nominatim_ok_none net q s hl hn]
        exact key
    | exn =>
      rw [nominatim_exn net q s hl hn]
      exact key

theorem tryChain_WF (net : Net) :
    ∀ (strats : List Estrategia) (s : GeoState), WFgeo s →
      WFgeo ((tryChain net strats s).2) := by
  intro strats
  induction strats with
  | nil => exact fun s hs => hs
  | cons e rest ih =>
    intro s hs
    cases hg : e.cond with
    | false =>
      rw [tryChain_cons_false net e rest s hg]
      exact ih s hs
    | true =>
      rcases hN : geocodificar_nominatim net e.query s with ⟨c?, s1⟩
      have hs1 : WFgeo s1 := by
        have h := nominatim_WF net e.query s hs
        rw [hN] at h
        exact h
      cases c? with
      | some c =>
        rw [tryChain_cons_some net e rest s s1 c hg hN]
        exact hs1
      | none =>
        rw [tryChain_cons_none net e rest s s1 hg hN]
        exact ih s1 hs1

theorem runBalizas_WF (net : Net) :
    ∀ (calls : List (String × String × String × String × String)) (s : GeoState),
      WFgeo s → WFgeo (runBalizas net calls s) := by
  intro calls
  induction calls with
  | nil => exact fun s hs => hs
  | cons hd rest ih =>
    intro s hs
    rcases hd with ⟨c, pk, prov, pob, com⟩
    exact ih _ (tryChain_WF net _ s hs)

theorem sep1_head_last :
    ∀ (l : List (String × ℤ)), sep1 l →
      ∀ a b, l.head? = some a → l.getLast? = some b →
        a.2 + ((l.length : ℤ) - 1) ≤ b.2 := by
  intro l
  induction l with
  | nil =>
    intro _ a b ha _
    exact absurd ha (by simp)
  | cons x t ih =>
    intro hsep a b ha hb
    have ha2 : x = a := by simpa using ha
    cases t with
    | nil =>
      have hb2 : x = b := by simpa using hb
      rw [← ha2, ← hb2]
      simp
    | cons y t2 =>
      rw [sep1, List.chain'_cons] at hsep
      obtain ⟨hxy, htail⟩ := hsep
      rw [← ha2]
      have hb2 : (y :: t2).getLast? = some b := by
        rw [← List.getLast?_cons_cons]
        exact hb
      have ihh := ih htail y b rfl hb2
      simp only [List.length_cons] at ihh ⊢
      push_cast at ihh ⊢
      linarith

/-- C8: in the idealised-time model (sleeps advance the clock exactly,
everything else is instantaneous), every run of resolver calls keeps the
global outbound-request trace spaced at least one second between
consecutive requests, and consequently a trace of N outbound requests
spans at least N − 1 seconds from first to last — so N consecutive
cache-missing resolver calls take at least N − 1 seconds. -/
theorem c8_rate_limit (net : Net)
    (calls : List (String × String × String × String × String)) (s : GeoState)
    (h : WFgeo s) :
    sep1 ((runBalizas net calls s).trace)
    ∧ ∀ a b, (runBalizas net calls s).trace.head? = some a →
        (runBalizas net calls s).trace.getLast? = some b →
        a.2 + (((runBalizas net calls s).trace.length : ℤ) - 1) ≤ b.2 := by
  have hwf := runBalizas_WF net calls s h
  exact ⟨hwf.1, fun a b ha hb => sep1_head_last _ hwf.1 a b ha hb⟩

theorem c8_witness :
    sep1 ((runBalizas netNoMatch
      [("A-1", "23", "MADRID", "Alcobendas", ""), ("M-50", "15", "MADRID", "", "")]
      s0geo).trace) :=
  (c8_rate_limit netNoMatch
    [("A-1", "23", "MADRID", "Alcobendas", ""), ("M-50", "15", "MADRID", "", "")]
    s0geo ⟨by simp [sep1, s0geo], by simp [s0geo]⟩).1

/-- A cell with no text and no nested elements. -/
def emptyCell : Cell := ⟨"", none, none, none, none, []⟩

/-- Six empty cells: a structurally well-formed row body. -/
def sixEmpty : List Cell :=
  [emptyCell, emptyCell, emptyCell, emptyCell, emptyCell, emptyCell]

/-- The record extracted from six empty cells. -/
def incEmpty : Incidencia :=
  ⟨"", "OBSTÁCULO FIJO", "", "", none, none, "desconocido", "DESCONOCIDA",
   "", "", "", "", "", "", true, none, none, none⟩

/-- Six cells whose description cell reads "ACCIDENTE". -/
def c1cells : List Cell :=
  [emptyCell, emptyCell, emptyCell, emptyCell, emptyCell,
   ⟨"ACCIDENTE", none, none, none, none, []⟩]

/-- The record extracted from `c1cells`. -/
def c1inc : Incidencia :=
  ⟨"", "OBSTÁCULO FIJO", "", "", none, none, "desconocido", "DESCONOCIDA",
   "", "", "", "", "", "ACCIDENTE", true, none, none, none⟩

/-- Six cells whose description cell reads "Obstáculo fijo por accidente". -/
def c1cellsB : List Cell :=
  [emptyCell, emptyCell, emptyCell, emptyCell, emptyCell,
   ⟨"Obstáculo fijo por accidente", none, none, none, none, []⟩]

/-- The record extracted from `c1cellsB`. -/
def c1incB : Incidencia :=
  ⟨"", "OBSTÁCULO FIJO POR ACCIDENTE", "", "", none, none, "desconocido", "DESCONOCIDA",
   "", "", "", "", "", "Obstáculo fijo por accidente", true, none, none, none⟩

theorem parse_row_isSome (cells : List Cell) (rid : String) (h : 6 ≤ cells.length) :
    (parse_row cells rid).isSome = true := by
  rcases cells with _ | ⟨d0, _ | ⟨d1, _ | ⟨d2, _ | ⟨d3, _ | ⟨d4, _ | ⟨d5, rest⟩⟩⟩⟩⟩⟩ <;>
    first
    | rfl
    | simp at h

theorem parse_row_activa (cells : List Cell) (rid : String) (inc : Incidencia)
    (h : parse_row cells rid = some inc) : inc.activa = inc.fecha_fin.isNone := by
  rcases cells with _ | ⟨d0, _ | ⟨d1, _ | ⟨d2, _ | ⟨d3, _ | ⟨d4, _ | ⟨d5, rest⟩⟩⟩⟩⟩⟩
  · exact absurd h (by simp [parse_row])
  · exact absurd h (by simp [parse_row])
  · exact absurd h (by simp [parse_row])
  · exact absurd h (by simp [parse_row])
  · exact absurd h (by simp [parse_row])
  · exact absurd h (by simp [parse_row])
  · simp only [parse_row, Option.some.injEq] at h
    subst h
    rfl

/-- C1 (counterexample): the claim "the category is the accident variant
iff the normalized upper-cased description contains the accident
substring" fails: a row whose description is exactly "ACCIDENTE"
contains the accident substring yet is classified as a plain obstacle,
because the code additionally requires the fixed-obstacle phrase in the
description. -/
theorem c1_counterexample :
    parse_row c1cells "" = some c1inc
    ∧ strContains (pyUpper c1inc.descripcion) "ACCIDENTE" = true
    ∧ c1inc.tipo ≠ "OBSTÁCULO FIJO POR ACCIDENTE" :=
  ⟨by decide, by decide, by decide⟩

/-- C1 (amended): the extracted record's category is the accident
variant iff the normalized, upper-cased description contains BOTH the
fixed-obstacle phrase and the accident substring; otherwise it is the
plain-obstacle category, and no third category exists. -/
theorem c1_tipo_amended (cells : List Cell) (rid : String) (inc : Incidencia)
    (h : parse_row cells rid = some inc) :
    (inc.tipo = "OBSTÁCULO FIJO POR ACCIDENTE"
      ↔ (strContains (pyUpper inc.descripcion) "OBSTÁCULO FIJO" = true
          ∧ strContains (pyUpper inc.descripcion) "ACCIDENTE" = true))
    ∧ (inc.tipo = "OBSTÁCULO FIJO POR ACCIDENTE" ∨ inc.tipo = "OBSTÁCULO FIJO") := by
  rcases cells with _ | ⟨d0, _ | ⟨d1, _ | ⟨d2, _ | ⟨d3, _ | ⟨d4, _ | ⟨d5, rest⟩⟩⟩⟩⟩⟩
  · exact absurd h (by simp [parse_row])
  · exact absurd h (by simp [parse_row])
  · exact absurd h (by simp [parse_row])
  · exact absurd h (by simp [parse_row])
  · exact absurd h (by simp [parse_row])
  · exact absurd h (by simp [parse_row])
  · simp only [parse_row, Option.some.injEq] at h
    subst h
    have hne : ("OBSTÁCULO FIJO" : String) ≠ "OBSTÁCULO FIJO POR ACCIDENTE" := by decide
    cases hA : strContains (pyUpper (collapseWS (pyStrip d5.text))) "OBSTÁCULO FIJO" <;>
      cases hB : strContains (pyUpper (collapseWS (pyStrip d5.text))) "ACCIDENTE" <;>
        simp [hA, hB, hne]

theorem c1_witness :
    c1incB.tipo = "OBSTÁCULO FIJO POR ACCIDENTE" ∨ c1incB.tipo = "OBSTÁCULO FIJO" :=
  (c1_tipo_amended c1cellsB "" c1incB (by decide)).2

/-- C3: a row kept by the filter (target phrase present, at least six
cells) produces exactly one record, prepended to the extraction of the
remaining rows, and that record's `activa` flag is precisely "no end
date was found". -/
theorem c3_active_iff_no_end (row : Row) (rows : List Row)
    (h1 : strContains (pyUpper row.text) "OBSTÁCULO FIJO" = true)
    (h2 : 6 ≤ row.cells.length) :
    (parse_row row.cells (extract_id row)).isSome = true
    ∧ ∀ inc, parse_row row.cells (extract_id row) = some inc →
        parse_incidencias (row :: rows) = inc :: parse_incidencias rows
        ∧ inc.activa = inc.fecha_fin.isNone := by
  refine ⟨parse_row_isSome _ _ h2, fun inc hinc => ⟨?_, parse_row_activa _ _ _ hinc⟩⟩
  have hL : ¬ (row.cells.length < 6) := by omega
  rw [parse_incidencias]
  simp [h1, hL, hinc]

/-- A well-formed row carrying the target phrase. -/
def c3row : Row := ⟨"OBSTÁCULO FIJO", sixEmpty, [], []⟩

theorem c3_witness : (parse_row c3row.cells (extract_id c3row)).isSome = true :=
  (c3_active_iff_no_end c3row [] (by decide) (by decide)).1

theorem dateAt_ne_empty (l : List Char) (d : String) (h : dateAt l = some d) : d ≠ "" := by
  unfold dateAt at h
  split at h
  · split at h
    · intro hemp
      subst hemp
      rw [Option.some.injEq] at h
      have h3 := congrArg String.data h
      simp at h3
    · exact absurd h (by simp)
  · exact absurd h (by simp)

theorem findDate_ne_empty : ∀ (l : List Char) (d : String), findDate l = some d → d ≠ "" := by
  intro l
  induction l with
  | nil =>
    intro d h
    exact absurd h (by simp [findDate])
  | cons c cs ih =>
    intro d h
    rw [findDate] at h
    cases hm : dateAt (c :: cs) with
    | some d2 =>
      rw [hm] at h
      have h2 : d2 = d := by simpa using h
      subst h2
      exact dateAt_ne_empty (c :: cs) d2 hm
    | none =>
      rw [hm] at h
      exact ih d h

/-- The end cell's label span is missing or blank. -/
def spanVacio (c : Cell) : Bool :=
  match c.span with
  | none => true
  | some t => pyStrip t == ""

/-- C5: the end-timestamp fields are populated only if the end cell's
nested label span has non-empty (stripped) text; when that span is
missing or blank both fields are left unset — `none`, never the empty
string — and the record is marked active. -/
theorem c5_end_fields (cells : List Cell) (rid : String) (inc : Incidencia) (cFin : Cell)
    (h : parse_row cells rid = some inc) (hc : cells.get? 1 = some cFin) :
    (spanVacio cFin = true →
      inc.hora_fin = none ∧ inc.fecha_fin = none ∧ inc.activa = true)
    ∧ ((inc.hora_fin ≠ none ∨ inc.fecha_fin ≠ none) → spanVacio cFin = false)
    ∧ inc.hora_fin ≠ some "" ∧ inc.fecha_fin ≠ some "" := by
  rcases cells with _ | ⟨d0, _ | ⟨d1, _ | ⟨d2, _ | ⟨d3, _ | ⟨d4, _ | ⟨d5, rest⟩⟩⟩⟩⟩⟩
  · exact absurd h (by simp [parse_row])
  · exact absurd h (by simp [parse_row])
  · exact absurd h (by simp [parse_row])
  · exact absurd h (by simp [parse_row])
  · exact absurd h (by simp [parse_row])
  · exact absurd h (by simp [parse_row])
  have hd1 : d1 = cFin := by simpa using hc
  subst hd1
  simp only [parse_row, Option.some.injEq] at h
  subst h
  cases hs : d1.span with
  | none =>
    refine ⟨fun _ => ⟨by simp [hs], by simp [hs], by simp [hs]⟩, ?_, ?_, ?_⟩
    · intro hor
      rcases hor with h1 | h1 <;> simp [hs] at h1
    · simp [hs]
    · simp [hs]
  | some t =>
    by_cases ht : pyStrip t = ""
    · refine ⟨fun _ => ⟨by simp [hs, ht], by simp [hs, ht], by simp [hs, ht]⟩, ?_, ?_, ?_⟩
      · intro hor
        rcases hor with h1 | h1 <;> simp [hs, ht] at h1
      · simp [hs, ht]
      · simp [hs, ht]
    · refine ⟨fun hsv => ?_, fun _ => ?_, ?_, ?_⟩
      · exact absurd (by simpa [spanVacio, hs] using hsv) ht
      · simp [spanVacio, hs]
        exact ht
      · simp [hs, ht]
      · simp [hs, ht]
        intro hfd
        exact findDate_ne_empty d1.text.data "" hfd rfl

theorem c5_witness :
    incEmpty.hora_fin = none ∧ incEmpty.fecha_fin = none ∧ incEmpty.activa = true :=
  (c5_end_fields sixEmpty "" incEmpty emptyCell (by decide) (by decide)).1 (by decide)

/-- C7: extraction is total and per-row failures are contained: a row
with fewer than six cells is dropped without affecting any other row; a
row whose per-row parse raises (modelled by `parse_row` returning
`none`) is dropped without affecting any other row; and a document with
no row mentioning the target phrase yields the empty sequence rather
than an error. -/
theorem c7_extraction_total :
    (∀ (r1 : List Row) (row : Row) (r2 : List Row), row.cells.length < 6 →
        parse_incidencias (r1 ++ row :: r2) = parse_incidencias (r1 ++ r2))
    ∧ (∀ (r1 : List Row) (row : Row) (r2 : List Row),
        parse_row row.cells (extract_id row) = none →
        parse_incidencias (r1 ++ row :: r2) = parse_incidencias (r1 ++ r2))
    ∧ (∀ rows : List Row,
        (∀ row ∈ rows, strContains (pyUpper row.text) "OBSTÁCULO FIJO" = false) →
        parse_incidencias rows = []) := by
  refine ⟨?_, ?_, ?_⟩
  · intro r1 row r2 h
    induction r1 with
    | nil =>
      simp only [List.nil_append]
      rw [parse_incidencias]
      cases hf : strContains (pyUpper row.text) "OBSTÁCULO FIJO" <;> simp [hf, h]
    | cons r rs ih =>
      simp only [List.cons_append, parse_incidencias, List.append_eq, ih]
  · intro r1 row r2 h
    induction r1 with
    | nil =>
      simp only [List.nil_append]
      rw [parse_incidencias]
      cases hf : strContains (pyUpper row.text) "OBSTÁCULO FIJO" <;>
        by_cases hL : row.cells.length < 6 <;> simp [hf, hL, h]
    | cons r rs ih =>
      simp only [List.cons_append, parse_incidencias, List.append_eq, ih]
  · intro rows h
    induction rows with
    | nil => rfl
    | cons r rs ih =>
      rw [parse_incidencias]
      have hr := h r (List.mem_cons_self r rs)
      simp [hr]
      exact ih (fun row hrow => h row (List.mem_cons_of_mem r hrow))

/-- A matching row with too few cells. -/
def rowBad : Row := ⟨"OBSTÁCULO FIJO", [], [], []⟩

/-- A row that does not mention the target phrase. -/
def rowNoMatch : Row := ⟨"RETENCIÓN", [], [], []⟩

theorem c7_witness :
    parse_incidencias [rowBad] = parse_incidencias []
    ∧ parse_incidencias [c3row, rowBad] = parse_incidencias [c3row]
    ∧ parse_incidencias [rowNoMatch] = [] :=
  ⟨c7_extraction_total.1 [] rowBad [] (by decide),
   c7_extraction_total.2.1 [c3row] rowBad [] (by decide),
   c7_extraction_total.2.2 [rowNoMatch] (by decide)⟩

end Balizas
